import Mathlib

/-!
Verification of `readthedocs/vcs_support/backends/git.py` (the git VCS
backend of readthedocs.org).

The backend is shallowly embedded.  Every external command invocation
goes through the command-runner collaborator `Backend.run` (the `run`
method inherited from `BaseVCS`), modelled as a fixed oracle from
argument vectors to `(exit code, stdout, stderr)` results.  The mutable
world threaded through each operation records the existence of the
working directory and the ordered trace of side effects (command runs,
recursive directory removal, warning logs).  Python exceptions
(`ProjectImportError`, and the `ValueError` raised by the tuple
unpacking in `parse_tags`) become `Except`/`Option` results.

Machine-level caveats of the translation, noted where they matter:
* `csv.reader(StringIO(data), delimiter=' ')` is modelled as splitting the
  text on newlines and each line on single spaces; for the quote-free
  output of `git show-ref` / `git branch -r` this is exactly what the
  Python reader does.
* `os.path.join(working_dir, '.git/config')` is modelled as
  `working_dir ++ "/.git/config"` (no trailing slash on `working_dir`).
* Python string primitives (`strip`, `split`, `replace`, `startswith`,
  slicing) are defined below over the character list of the string, by
  structural recursion, so that every definition evaluates inside the
  kernel.
-/

/-- Python `str.strip()` whitespace characters. -/
def pyIsSpace (c : Char) : Bool :=
  c = ' ' || c = '\t' || c = '\n' || c = '\r' || c = '\x0b' || c = '\x0c'

/-- Python `str.strip()`: drop whitespace from both ends. -/
def pyStrip (s : String) : String :=
  String.mk (((s.data.dropWhile pyIsSpace).reverse.dropWhile pyIsSpace).reverse)

/-- Split a character list on a separator character; the result always has
at least one (possibly empty) piece. -/
def splitChars (c : Char) : List Char → List (List Char)
  | [] => [[]]
  | a :: rest =>
    match splitChars c rest with
    | [] => [[]]
    | h :: t => if a = c then [] :: h :: t else (a :: h) :: t

/-- Python `s.split(c)` for a one-character separator `c`. -/
def pySplit (s : String) (c : Char) : List String :=
  (splitChars c s.data).map String.mk

/-- Python `s.replace(a, b)` for one-character `a`, `b`. -/
def pyReplaceChar (s : String) (a b : Char) : String :=
  String.mk (s.data.map (fun x => if x = a then b else x))

/-- Python `s.startswith(pre)`. -/
def pyStartsWith (s pre : String) : Bool :=
  pre.data.isPrefixOf s.data

/-- Python `s[n:]`. -/
def pyDropChars (s : String) (n : Nat) : String :=
  String.mk (s.data.drop n)

/-- Result of running an external command: exit code, stdout, stderr. -/
structure RunResult where
  code : Int
  out : String
  err : String
deriving Repr, DecidableEq

/-- Which git step failed; used to tag an import error. -/
inductive GitStep
  | fetch
  | clone
deriving Repr, DecidableEq

/-- `projects.exceptions.ProjectImportError`, raised by `pull` and `clone`.
The Python code formats a message from the repository URL and the exit
code; we keep those two data (plus the step name) structurally. -/
structure ProjectImportError where
  url : String
  step : GitStep
  code : Int
deriving Repr, DecidableEq

/-- Observable side effects of the backend, in order of occurrence. -/
inductive Event
  | run (args : List String) (res : RunResult)
  | rmtree (dir : String)
  | warn (url : String) (code : Int)
deriving Repr, DecidableEq

/-- The mutable world threaded through an operation: whether the working
directory currently exists, and the trace of side effects so far. -/
structure World where
  dirExists : Bool
  events : List Event
deriving Repr, DecidableEq

/-- The backend instance: `self.repo_url`, `self.default_branch` (`none`
when not configured), `self.working_dir`, and the inherited command
runner `self.run`, modelled as a fixed oracle for one logical operation
against an unchanging external environment. -/
structure Backend where
  repo_url : String
  default_branch : Option String
  working_dir : String
  run : List String → RunResult

namespace Backend

/-- `self.run(*bits)`: invoke the command runner, record the event. -/
def runCmd (b : Backend) (w : World) (args : List String) :
    RunResult × World :=
  let r := b.run args
  (r, { w with events := w.events ++ [Event.run args r] })

/-- `shutil.rmtree`: recursively remove a directory. -/
def rmtreeFs (dir : String) (w : World) : World :=
  { w with dirExists := false, events := w.events ++ [Event.rmtree dir] }

/-- `log.warning(...)`: record a warning carrying the URL and exit code. -/
def logWarning (url : String) (code : Int) (w : World) : World :=
  { w with events := w.events ++ [Event.warn url code] }

/-- `fallback_branch = 'master'  # default branch` -/
def fallback_branch : String := "master"

/-- Python `a or b` on an optional string: `None` and `''` are falsy. -/
def pyOr (a : Option String) (b : String) : String :=
  match a with
  | none => b
  | some s => if s = "" then b else s

/-- Argument vector of the remote-origin-url lookup. -/
def configArgs (b : Backend) : List String :=
  ["git", "config", "-f", b.working_dir ++ "/.git/config",
   "--get", "remote.origin.url"]

/-- `repo_url_changed`: run the config lookup, compare stripped stdout
with `self.repo_url`; the exit code is never inspected. -/
def repo_url_changed (b : Backend) (w : World) : Bool × World :=
  let p := runCmd b w (configArgs b)
  (pyStrip p.1.out != b.repo_url, p.2)

/-- Modelled from the spec: `BaseVCS.check_working_dir`
(`vcs_support/base.py` is not in the sources). Per §4.1, if the working
directory does not exist no action is taken here (the Sync Engine creates
it via clone), so the base step is a no-op on our observable state. -/
def base_check_working_dir (_b : Backend) (w : World) : World := w

/-- `check_working_dir`: if the directory exists and the stored origin URL
differs from the requested one, remove the directory recursively; then
defer to the base class. -/
def check_working_dir (b : Backend) (w : World) : World :=
  if w.dirExists then
    let p := repo_url_changed b w
    let w' := if p.1 then rmtreeFs b.working_dir p.2 else p.2
    base_check_working_dir b w'
  else
    base_check_working_dir b w

/-- Modelled from the spec: `BaseVCS.update` (not in the sources). Per
§4.2 step 1 the update sequence begins with the working-directory check;
`super(Backend, self).update()` dispatches to the overridden
`check_working_dir`. -/
def base_update (b : Backend) (w : World) : World :=
  check_working_dir b w

/-- Modelled from the spec: `BaseVCS.checkout` (not in the sources). Per
§8 the working-directory check is performed at the start of `checkout` as
well; `super(Backend, self).checkout()` dispatches to the overridden
`check_working_dir`. -/
def base_checkout (b : Backend) (w : World) : World :=
  check_working_dir b w

/-- `repo_exists`: `git status` exit code zero means a valid repository. -/
def repo_exists (b : Backend) (w : World) : Bool × World :=
  let p := runCmd b w ["git", "status"]
  (p.1.code == 0, p.2)

/-- `pull`: `git fetch --prune`; non-zero exit raises
`ProjectImportError` carrying the repository URL and the exit code. -/
def pull (b : Backend) (w : World) : Option ProjectImportError × World :=
  let p := runCmd b w ["git", "fetch", "--prune"]
  if p.1.code ≠ 0 then
    (some ⟨b.repo_url, GitStep.fetch, p.1.code⟩, p.2)
  else
    (none, p.2)

/-- Argument vector of the clone command. -/
def cloneArgs (b : Backend) : List String :=
  ["git", "clone", "--recursive", "--quiet", b.repo_url, "."]

/-- `clone`: recursive quiet clone into `.`; non-zero exit raises
`ProjectImportError` carrying the repository URL and the exit code. -/
def clone (b : Backend) (w : World) : Option ProjectImportError × World :=
  let p := runCmd b w (cloneArgs b)
  if p.1.code ≠ 0 then
    (some ⟨b.repo_url, GitStep.clone, p.1.code⟩, p.2)
  else
    (none, p.2)

/-- Argument vector of the hard reset performed by `reset`
(`revision = 'origin/%s' % branch`). -/
def resetArgs (b : Backend) : List String :=
  ["git", "reset", "--hard",
   "origin/" ++ pyOr b.default_branch fallback_branch]

/-- `reset`: hard reset to `origin/<default_branch or fallback_branch>`;
non-zero exit is logged as a warning, never raised, and the raw triple is
returned unchanged. -/
def reset (b : Backend) (w : World) : RunResult × World :=
  let p := runCmd b w (resetArgs b)
  let w' := if p.1.code ≠ 0 then logWarning b.repo_url p.1.code p.2 else p.2
  (p.1, w')

/-- The body of `update` after the `super(Backend, self).update()` call:
fetch if a valid repository exists else clone (either may raise), then
submodule sync and recursive submodule update with exit codes ignored,
finally returning the result of `reset`. -/
def update_after_check (b : Backend) (w0 : World) :
    Except ProjectImportError RunResult × World :=
  let pe := repo_exists b w0
  let step := if pe.1 then pull b pe.2 else clone b pe.2
  match step with
  | (some e, w1) => (Except.error e, w1)
  | (none, w1) =>
    let p1 := runCmd b w1 ["git", "submodule", "sync"]
    let p2 := runCmd b p1.2 ["git", "submodule", "update", "--init", "--recursive"]
    let pr := reset b p2.2
    (Except.ok pr.1, pr.2)

/-- `update`: working-directory check (via the base class), then the
clone-or-fetch / submodule / reset sequence. -/
def update (b : Backend) (w : World) :
    Except ProjectImportError RunResult × World :=
  update_after_check b (base_update b w)

/-- `checkout`: base check, full `update` (propagating its error), then a
hard reset directly to the identifier (defaulting to the default branch or
the fallback), returning that raw triple. -/
def checkout (b : Backend) (identifier : Option String) (w : World) :
    Except ProjectImportError RunResult × World :=
  let w0 := base_checkout b w
  match update b w0 with
  | (Except.error e, w1) => (Except.error e, w1)
  | (Except.ok _, w1) =>
    let ident := pyOr identifier (pyOr b.default_branch fallback_branch)
    let p := runCmd b w1 ["git", "reset", "--hard", ident, "--"]
    (Except.ok p.1, p.2)

end Backend

/-- `vcs_support.base.VCSVersion` is not in the sources. Modelled from the
spec: a Revision record with the raw `identifier` and the derived
`verbose_name`/`slug` (§3); the back-reference to the owning backend is a
non-owning handle irrelevant to the parsed content and is omitted. -/
structure VCSVersion where
  identifier : String
  verbose_name : String
deriving Repr, DecidableEq

instance {ε α : Type} [DecidableEq ε] [DecidableEq α] :
    DecidableEq (Except ε α) := fun a b =>
  match a, b with
  | Except.ok x, Except.ok y =>
    if h : x = y then isTrue (by rw [h])
    else isFalse (by intro hh; cases hh; exact h rfl)
  | Except.error x, Except.error y =>
    if h : x = y then isTrue (by rw [h])
    else isFalse (by intro hh; cases hh; exact h rfl)
  | Except.ok _, Except.error _ => isFalse (by intro hh; cases hh)
  | Except.error _, Except.ok _ => isFalse (by intro hh; cases hh)

namespace Backend

/-- Tokenization of one line by `csv.reader(..., delimiter=' ')` followed
by `filter(lambda f: f != '', row)`. -/
def lineTokens (line : String) : List String :=
  (pySplit line ' ').filter (fun f => f != "")

/-- `name.split('/')[-1]`: last slash-separated segment (the split of a
string on `/` is never empty, so the default is never used). -/
def lastSegment (s : String) : String :=
  ((pySplit s '/').getLast?).getD s

/-- The per-line loop of `parse_tags`: empty rows are skipped; a row of
exactly two tokens contributes a `VCSVersion`; any other row raises
`ValueError` (tuple unpacking `commit_hash, name = row`). -/
def parse_tags_lines : List String → Except String (List VCSVersion)
  | [] => Except.ok []
  | line :: rest =>
    match lineTokens line with
    | [] => parse_tags_lines rest
    | [commit_hash, name] =>
      match parse_tags_lines rest with
      | Except.ok tl =>
          Except.ok (VCSVersion.mk commit_hash (lastSegment name) :: tl)
      | Except.error e => Except.error e
    | _ => Except.error "ValueError: unpacking row"

/-- `parse_tags`: parse the output of `git show-ref --tags`. -/
def parse_tags (data : String) : Except String (List VCSVersion) :=
  parse_tags_lines (pySplit data '\n')

/-- `tags` property: run `git show-ref --tags`; non-zero exit yields the
empty collection, otherwise the stdout is parsed. -/
def tags (b : Backend) (w : World) :
    Except String (List VCSVersion) × World :=
  let p := runCmd b w ["git", "show-ref", "--tags"]
  if p.1.code ≠ 0 then (Except.ok [], p.2)
  else (parse_tags p.1.out, p.2)

/-- Tokenization of one line of `git branch -r` output: the csv split
followed by `filter(lambda f: f != '' and f != '*', branch)`. -/
def branchTokens (line : String) : List String :=
  (pySplit line ' ').filter (fun f => f != "" && f != "*")

/-- The per-line loop of `parse_branches`: empty rows are skipped; the
first token is the raw branch; an `origin/`-prefixed branch is slugged by
stripping the prefix and replacing `/` with `-`, and skipped when the slug
is exactly `HEAD`; a non-prefixed branch (dead code per the source
comment) is slugged by replacing `/` with `-`. -/
def parse_branches_lines : List String → List VCSVersion
  | [] => []
  | line :: rest =>
    match branchTokens line with
    | [] => parse_branches_lines rest
    | branch :: _ =>
      if pyStartsWith branch "origin/" then
        let slug := pyReplaceChar (pyDropChars branch ("origin/".length)) '/' '-'
        if slug = "HEAD" then parse_branches_lines rest
        else VCSVersion.mk branch slug :: parse_branches_lines rest
      else
        let slug := pyReplaceChar branch '/' '-'
        VCSVersion.mk branch slug :: parse_branches_lines rest

/-- `parse_branches`: parse the output of `git branch -r`. -/
def parse_branches (data : String) : List VCSVersion :=
  parse_branches_lines (pySplit data '\n')

/-- `branches` property: run `git branch -r`; non-zero exit yields the
empty collection, otherwise the stdout is parsed. -/
def branches (b : Backend) (w : World) : List VCSVersion × World :=
  let p := runCmd b w ["git", "branch", "-r"]
  if p.1.code ≠ 0 then ([], p.2)
  else (parse_branches p.1.out, p.2)

end Backend

/-! ## Helper predicates on events -/

/-- An event that runs a `git submodule ...` or `git reset ...` command. -/
def touchesSubmoduleOrReset : Event → Bool
  | Event.run args _ =>
      args.take 2 == ["git", "submodule"] || args.take 2 == ["git", "reset"]
  | _ => false

/-- An event that runs a `git clone ...` or `git fetch ...` command. -/
def isCloneOrFetchRun : Event → Bool
  | Event.run args _ =>
      args.take 2 == ["git", "clone"] || args.take 2 == ["git", "fetch"]
  | _ => false

/-- A recursive-removal event. -/
def isRmtreeEvent : Event → Bool
  | Event.rmtree _ => true
  | _ => false

/-! ## C1 -/

set_option maxHeartbeats 1000000 in
/-- C1: whenever the fetch step (valid repository present) or the clone
step (otherwise) exits non-zero, `update` signals a `ProjectImportError`
carrying the remote URL and that exit code, and no submodule command and
no hard reset is run in that call. -/
theorem update_failed_fetch_or_clone_aborts (b : Backend) (w : World)
    (hw : w.events = [])
    (h : ((b.run ["git", "status"]).code = 0 ∧
            (b.run ["git", "fetch", "--prune"]).code ≠ 0)
       ∨ ((b.run ["git", "status"]).code ≠ 0 ∧
            (b.run (Backend.cloneArgs b)).code ≠ 0)) :
    (((b.run ["git", "status"]).code = 0 →
        (Backend.update b w).1 =
          Except.error ⟨b.repo_url, GitStep.fetch,
            (b.run ["git", "fetch", "--prune"]).code⟩)
     ∧ ((b.run ["git", "status"]).code ≠ 0 →
        (Backend.update b w).1 =
          Except.error ⟨b.repo_url, GitStep.clone,
            (b.run (Backend.cloneArgs b)).code⟩))
    ∧ ∀ e ∈ (Backend.update b w).2.events,
        touchesSubmoduleOrReset e = false := by
  rcases w with ⟨dirE, ev⟩
  simp only at hw
  subst hw
  simp only [Backend.update, Backend.update_after_check, Backend.base_update,
    Backend.check_working_dir, Backend.base_check_working_dir,
    Backend.repo_url_changed, Backend.repo_exists,
    Backend.pull, Backend.clone, Backend.runCmd, Backend.rmtreeFs] at *
  cases dirE <;>
    rcases h with ⟨hs, hf⟩ | ⟨hs, hc⟩ <;>
    split_ifs <;>
    simp_all [touchesSubmoduleOrReset, Backend.cloneArgs, Backend.configArgs]

/-! ## C3 -/

/-- C3: `reset` targets `origin/` prepended to the default branch (or to
the fallback branch when none is configured); the raw (code, stdout,
stderr) triple is returned to the caller unchanged whatever the exit
code, and a non-zero exit only logs a warning instead of raising. -/
theorem reset_revision_and_nonfatal (b : Backend) (w : World) :
    ((b.default_branch = none →
        (Backend.reset b w).1 =
          b.run ["git", "reset", "--hard",
            "origin/" ++ Backend.fallback_branch])
     ∧ (∀ db, b.default_branch = some db → db ≠ "" →
        (Backend.reset b w).1 =
          b.run ["git", "reset", "--hard", "origin/" ++ db]))
    ∧ ((Backend.reset b w).1.code ≠ 0 →
        (Backend.reset b w).2.events = w.events ++
          [Event.run (Backend.resetArgs b) ((Backend.reset b w).1),
           Event.warn b.repo_url (Backend.reset b w).1.code])
    ∧ ((Backend.reset b w).1.code = 0 →
        (Backend.reset b w).2.events = w.events ++
          [Event.run (Backend.resetArgs b) ((Backend.reset b w).1)]) := by
  refine ⟨⟨?_, ?_⟩, ?_, ?_⟩
  · intro h
    simp [Backend.reset, Backend.resetArgs, Backend.pyOr, h, Backend.runCmd]
  · intro db h hne
    simp [Backend.reset, Backend.resetArgs, Backend.pyOr, h, hne, Backend.runCmd]
  · intro h
    simp only [Backend.reset, Backend.runCmd, Backend.logWarning] at *
    simp [h]
  · intro h
    simp only [Backend.reset, Backend.runCmd, Backend.logWarning] at *
    simp [h]

/-! ## C10 -/

/-- C10: `repo_url_changed` decides by comparing the whitespace-stripped
stdout of the config lookup with the requested URL for exact string
equality; the exit code is ignored entirely (any runner agreeing on the
stdout gives the same verdict), and empty output compares as changed for
any non-empty URL. -/
theorem repo_url_changed_pure_string_compare (b : Backend) (w : World)
    (rnr2 : List String → RunResult)
    (hout : (rnr2 (Backend.configArgs b)).out =
            (b.run (Backend.configArgs b)).out) :
    ((Backend.repo_url_changed b w).1 = true ↔
        pyStrip (b.run (Backend.configArgs b)).out ≠ b.repo_url)
    ∧ (Backend.repo_url_changed { b with run := rnr2 } w).1 =
        (Backend.repo_url_changed b w).1
    ∧ (pyStrip (b.run (Backend.configArgs b)).out = "" → b.repo_url ≠ "" →
        (Backend.repo_url_changed b w).1 = true) := by
  refine ⟨?_, ?_, ?_⟩
  · simp [Backend.repo_url_changed, Backend.runCmd, bne_iff_ne]
  · simp [Backend.repo_url_changed, Backend.runCmd, Backend.configArgs] at hout ⊢
    rw [hout]
  · intro h1 h2
    simp [Backend.repo_url_changed, Backend.runCmd, h1, bne_iff_ne]
    exact fun hh => h2 hh.symm

/-! ## C6 -/

/-- C6: `parse_tags` on empty input yields the empty collection; the
`tags` operation yields the empty collection (instead of raising) when
`git show-ref --tags` exits non-zero, and `branches` likewise when
`git branch -r` exits non-zero. -/
theorem tags_branches_empty_on_failure (b : Backend) (w : World)
    (ht : (b.run ["git", "show-ref", "--tags"]).code ≠ 0)
    (hb : (b.run ["git", "branch", "-r"]).code ≠ 0) :
    Backend.parse_tags "" = Except.ok []
    ∧ (Backend.tags b w).1 = Except.ok []
    ∧ (Backend.branches b w).1 = [] := by
  refine ⟨by decide, ?_, ?_⟩
  · simp [Backend.tags, Backend.runCmd, ht]
  · simp [Backend.branches, Backend.runCmd, hb]

/-! ## C9 -/

/-- Auxiliary for C9: one line with a non-empty token list of length other
than two makes the whole line loop fail with the unpacking error. -/
theorem parse_tags_lines_malformed (ls : List String) (l : String)
    (hl : l ∈ ls) (hne : Backend.lineTokens l ≠ [])
    (hcount : (Backend.lineTokens l).length ≠ 2) :
    ∃ e, Backend.parse_tags_lines ls = Except.error e := by
  induction ls with
  | nil => cases hl
  | cons hd tl ih =>
    rcases List.mem_cons.mp hl with rfl | hmem
    · rcases htok : Backend.lineTokens l with _ | ⟨a, _ | ⟨c, _ | ⟨d, rest⟩⟩⟩
      · exact absurd htok hne
      · exact ⟨"ValueError: unpacking row",
          by simp [Backend.parse_tags_lines, htok]⟩
      · exact absurd (by simp [htok]) hcount
      · exact ⟨"ValueError: unpacking row",
          by simp [Backend.parse_tags_lines, htok]⟩
    · obtain ⟨e, he⟩ := ih hmem
      rcases htok : Backend.lineTokens hd with _ | ⟨a, _ | ⟨c, _ | ⟨d, rest⟩⟩⟩
      · exact ⟨e, by simp [Backend.parse_tags_lines, htok, he]⟩
      · exact ⟨"ValueError: unpacking row",
          by simp [Backend.parse_tags_lines, htok]⟩
      · exact ⟨e, by simp [Backend.parse_tags_lines, htok, he]⟩
      · exact ⟨"ValueError: unpacking row",
          by simp [Backend.parse_tags_lines, htok]⟩

/-- C9: `parse_tags` is partial on malformed input: an input containing a
line whose non-empty filtered token list does not have exactly two
entries makes it raise the unpacking error rather than skip the line or
return a collection. -/
theorem parse_tags_malformed_raises (data l : String)
    (hl : l ∈ pySplit data '\n')
    (hne : Backend.lineTokens l ≠ [])
    (hcount : (Backend.lineTokens l).length ≠ 2) :
    ∃ e, Backend.parse_tags data = Except.error e :=
  parse_tags_lines_malformed (pySplit data '\n') l hl hne hcount

/-! ## C4 -/

/-- Auxiliary for C4: the line loop on a listing in which every line
tokenizes to exactly its two columns. -/
theorem parse_tags_lines_wellformed (cols : List (String × String))
    (htok : ∀ p ∈ cols,
        Backend.lineTokens (p.1 ++ " " ++ p.2) = [p.1, p.2]) :
    Backend.parse_tags_lines (cols.map fun p => p.1 ++ " " ++ p.2) =
      Except.ok (cols.map fun p =>
        VCSVersion.mk p.1 (Backend.lastSegment p.2)) := by
  induction cols with
  | nil => rfl
  | cons hd tl ih =>
    have h1 := htok hd (by simp)
    have h2 := ih (fun p hp => htok p (by simp [hp]))
    simp [Backend.parse_tags_lines, h1, h2]

/-- C4: on a well-formed listing of N lines, each exactly a hash column
and a ref column separated by whitespace, `parse_tags` returns exactly N
records in input order, the identifier being the hash column and the slug
the final slash-separated segment of the ref column. -/
theorem parse_tags_wellformed (data : String) (cols : List (String × String))
    (hsplit : pySplit data '\n' = cols.map fun p => p.1 ++ " " ++ p.2)
    (htok : ∀ p ∈ cols,
        Backend.lineTokens (p.1 ++ " " ++ p.2) = [p.1, p.2]) :
    Backend.parse_tags data =
      Except.ok (cols.map fun p =>
        VCSVersion.mk p.1 (Backend.lastSegment p.2)) := by
  unfold Backend.parse_tags
  rw [hsplit]
  exact parse_tags_lines_wellformed cols htok

/-! ## C5 -/

/-- Auxiliary for C5: the branch line loop distributes over append. -/
theorem parse_branches_lines_append (l1 l2 : List String) :
    Backend.parse_branches_lines (l1 ++ l2) =
      Backend.parse_branches_lines l1 ++ Backend.parse_branches_lines l2 := by
  induction l1 with
  | nil => rfl
  | cons hd tl ih =>
    rcases htok : Backend.branchTokens hd with _ | ⟨branch, ts⟩
    · simp [Backend.parse_branches_lines, htok, ih]
    · simp only [List.cons_append, Backend.parse_branches_lines, htok]
      split_ifs <;> simp [ih]

/-- Auxiliary for C5: a string built by prepending `origin/` starts with
`origin/`. -/
theorem pyStartsWith_origin (rest : String) :
    pyStartsWith ("origin/" ++ rest) "origin/" = true := by
  obtain ⟨rd⟩ := rest
  show ("origin/" : String).data.isPrefixOf
    (("origin/" : String) ++ String.mk rd).data = true
  rw [String.data_append]
  simp [List.isPrefixOf_iff_prefix]

/-- Auxiliary for C5: dropping `len('origin/')` characters undoes the
prepending of `origin/`. -/
theorem pyDropChars_origin (rest : String) :
    pyDropChars ("origin/" ++ rest) ("origin/".length) = rest := by
  obtain ⟨rd⟩ := rest
  show String.mk ((("origin/" : String) ++ String.mk rd).data.drop
    (("origin/" : String).length)) = String.mk rd
  rw [String.data_append]
  have h7 : ("origin/" : String).length = ("origin/" : String).data.length := rfl
  rw [h7, List.drop_left]

/-- C5: in `parse_branches`, a line whose first surviving token is
`origin/`-prefixed contributes a record whose slug is that token with the
`origin/` prefix removed and every remaining slash replaced by a hyphen —
except that when the stripped name is exactly `HEAD` (the remote-HEAD
alias line) the line contributes no record at all. -/
theorem parse_branches_origin_slug (data : String) (pre post : List String)
    (l rest : String) (ts : List String)
    (hsplit : pySplit data '\n' = pre ++ l :: post)
    (htok : Backend.branchTokens l = ("origin/" ++ rest) :: ts) :
    Backend.parse_branches data =
      Backend.parse_branches_lines pre ++
      (if pyReplaceChar rest '/' '-' = "HEAD" then []
       else [VCSVersion.mk ("origin/" ++ rest) (pyReplaceChar rest '/' '-')]) ++
      Backend.parse_branches_lines post := by
  unfold Backend.parse_branches
  rw [hsplit, parse_branches_lines_append, List.append_assoc]
  congr 1
  simp only [Backend.parse_branches_lines, htok, pyStartsWith_origin,
    pyDropChars_origin, if_true]
  by_cases hh : pyReplaceChar rest '/' '-' = "HEAD" <;> simp [hh]

/-! ## Infrastructure: effect of the operations on the trace -/

theorem check_working_dir_notexists (b : Backend) (w : World)
    (hd : w.dirExists = false) :
    Backend.check_working_dir b w = w := by
  simp [Backend.check_working_dir, Backend.base_check_working_dir, hd]

theorem check_working_dir_same_url (b : Backend) (w : World)
    (hd : w.dirExists = true)
    (hc : pyStrip (b.run (Backend.configArgs b)).out = b.repo_url) :
    Backend.check_working_dir b w =
      { w with events := w.events ++
          [Event.run (Backend.configArgs b)
            (b.run (Backend.configArgs b))] } := by
  simp [Backend.check_working_dir, Backend.base_check_working_dir,
    Backend.repo_url_changed, Backend.runCmd, hd, hc]

theorem check_working_dir_changed (b : Backend) (w : World)
    (hd : w.dirExists = true)
    (hc : pyStrip (b.run (Backend.configArgs b)).out ≠ b.repo_url) :
    Backend.check_working_dir b w =
      { dirExists := false,
        events := w.events ++
          [Event.run (Backend.configArgs b) (b.run (Backend.configArgs b)),
           Event.rmtree b.working_dir] } := by
  simp [Backend.check_working_dir, Backend.base_check_working_dir,
    Backend.repo_url_changed, Backend.runCmd, Backend.rmtreeFs, hd,
    bne_iff_ne, hc]

/-- The body of `update` after the check appends only command runs and
warnings to the trace — never a removal. -/
theorem update_after_check_tail (b : Backend) (w : World) :
    ∃ t, (Backend.update_after_check b w).2.events = w.events ++ t
      ∧ ∀ e ∈ t, isRmtreeEvent e = false := by
  by_cases h1 : (b.run ["git", "status"]).code = 0
  · by_cases h2 : (b.run ["git", "fetch", "--prune"]).code = 0
    · by_cases h3 : (b.run (Backend.resetArgs b)).code = 0
      · refine ⟨[Event.run ["git", "status"] (b.run ["git", "status"]),
          Event.run ["git", "fetch", "--prune"] (b.run ["git", "fetch", "--prune"]),
          Event.run ["git", "submodule", "sync"] (b.run ["git", "submodule", "sync"]),
          Event.run ["git", "submodule", "update", "--init", "--recursive"]
            (b.run ["git", "submodule", "update", "--init", "--recursive"]),
          Event.run (Backend.resetArgs b) (b.run (Backend.resetArgs b))], ?_, ?_⟩
        · simp [Backend.update_after_check, Backend.repo_exists, Backend.pull,
            Backend.reset, Backend.runCmd, Backend.logWarning, h1, h2, h3]
        · simp [isRmtreeEvent]
      · refine ⟨[Event.run ["git", "status"] (b.run ["git", "status"]),
          Event.run ["git", "fetch", "--prune"] (b.run ["git", "fetch", "--prune"]),
          Event.run ["git", "submodule", "sync"] (b.run ["git", "submodule", "sync"]),
          Event.run ["git", "submodule", "update", "--init", "--recursive"]
            (b.run ["git", "submodule", "update", "--init", "--recursive"]),
          Event.run (Backend.resetArgs b) (b.run (Backend.resetArgs b)),
          Event.warn b.repo_url (b.run (Backend.resetArgs b)).code], ?_, ?_⟩
        · simp [Backend.update_after_check, Backend.repo_exists, Backend.pull,
            Backend.reset, Backend.runCmd, Backend.logWarning, h1, h2, h3]
        · simp [isRmtreeEvent]
    · refine ⟨[Event.run ["git", "status"] (b.run ["git", "status"]),
        Event.run ["git", "fetch", "--prune"]
          (b.run ["git", "fetch", "--prune"])], ?_, ?_⟩
      · simp [Backend.update_after_check, Backend.repo_exists, Backend.pull,
          Backend.runCmd, h1, h2]
      · simp [isRmtreeEvent]
  · by_cases h2 : (b.run (Backend.cloneArgs b)).code = 0
    · by_cases h3 : (b.run (Backend.resetArgs b)).code = 0
      · refine ⟨[Event.run ["git", "status"] (b.run ["git", "status"]),
          Event.run (Backend.cloneArgs b) (b.run (Backend.cloneArgs b)),
          Event.run ["git", "submodule", "sync"] (b.run ["git", "submodule", "sync"]),
          Event.run ["git", "submodule", "update", "--init", "--recursive"]
            (b.run ["git", "submodule", "update", "--init", "--recursive"]),
          Event.run (Backend.resetArgs b) (b.run (Backend.resetArgs b))], ?_, ?_⟩
        · simp [Backend.update_after_check, Backend.repo_exists, Backend.clone,
            Backend.reset, Backend.runCmd, Backend.logWarning, h1, h2, h3]
        · simp [isRmtreeEvent]
      · refine ⟨[Event.run ["git", "status"] (b.run ["git", "status"]),
          Event.run (Backend.cloneArgs b) (b.run (Backend.cloneArgs b)),
          Event.run ["git", "submodule", "sync"] (b.run ["git", "submodule", "sync"]),
          Event.run ["git", "submodule", "update", "--init", "--recursive"]
            (b.run ["git", "submodule", "update", "--init", "--recursive"]),
          Event.run (Backend.resetArgs b) (b.run (Backend.resetArgs b)),
          Event.warn b.repo_url (b.run (Backend.resetArgs b)).code], ?_, ?_⟩
        · simp [Backend.update_after_check, Backend.repo_exists, Backend.clone,
            Backend.reset, Backend.runCmd, Backend.logWarning, h1, h2, h3]
        · simp [isRmtreeEvent]
    · refine ⟨[Event.run ["git", "status"] (b.run ["git", "status"]),
        Event.run (Backend.cloneArgs b) (b.run (Backend.cloneArgs b))], ?_, ?_⟩
      · simp [Backend.update_after_check, Backend.repo_exists, Backend.clone,
          Backend.runCmd, h1, h2]
      · simp [isRmtreeEvent]

/-- The trace of a full `update` extends the trace left by the
working-directory check, with no further removal events. -/
theorem update_tail (b : Backend) (w : World) :
    ∃ t, (Backend.update b w).2.events =
        (Backend.check_working_dir b w).events ++ t
      ∧ ∀ e ∈ t, isRmtreeEvent e = false :=
  update_after_check_tail b (Backend.check_working_dir b w)

/-- The trace of a full `checkout` extends the trace left by the two
working-directory checks (its own and the one inside `update`), with no
further removal events. -/
theorem checkout_tail (b : Backend) (ident : Option String) (w : World) :
    ∃ t, (Backend.checkout b ident w).2.events =
        (Backend.check_working_dir b (Backend.check_working_dir b w)).events ++ t
      ∧ ∀ e ∈ t, isRmtreeEvent e = false := by
  obtain ⟨t, ht, hno⟩ :=
    update_after_check_tail b
      (Backend.check_working_dir b (Backend.check_working_dir b w))
  have ht' : (Backend.update b (Backend.base_checkout b w)).2.events =
      (Backend.check_working_dir b (Backend.check_working_dir b w)).events
        ++ t := ht
  simp only [Backend.checkout]
  rcases hu : Backend.update b (Backend.base_checkout b w) with ⟨res, w2⟩
  rw [hu] at ht'
  cases res with
  | error e =>
    exact ⟨t, ht', hno⟩
  | ok r =>
    refine ⟨t ++ [Event.run
        ["git", "reset", "--hard",
          Backend.pyOr ident (Backend.pyOr b.default_branch Backend.fallback_branch),
          "--"]
        (b.run ["git", "reset", "--hard",
          Backend.pyOr ident (Backend.pyOr b.default_branch Backend.fallback_branch),
          "--"])], ?_, ?_⟩
    · have ht2 : w2.events =
          (Backend.check_working_dir b (Backend.check_working_dir b w)).events
            ++ t := ht'
      simp [Backend.runCmd, ht2]
    · intro e he
      rcases List.mem_append.mp he with he | he
      · exact hno e he
      · simp only [List.mem_singleton] at he
        subst he
        rfl

/-! ## C2 -/

set_option maxHeartbeats 1000000 in
/-- C2: when the working directory exists and its stored origin URL
differs from the requested URL, the check at the start of `update` and
`checkout` removes the whole directory right after the config inspection
— before any other command, in particular before any clone or fetch; and
this is the only path producing a removal: with the directory absent or
the URL unchanged, no removal event ever occurs in `update` or
`checkout`. -/
theorem working_dir_removal_policy (b : Backend) (w : World)
    (hw : w.events = []) :
    ((w.dirExists = true →
        pyStrip (b.run (Backend.configArgs b)).out ≠ b.repo_url →
        (∃ t, (Backend.update b w).2.events =
            Event.run (Backend.configArgs b) (b.run (Backend.configArgs b)) ::
            Event.rmtree b.working_dir :: t)
        ∧ ∀ ident, ∃ t, (Backend.checkout b ident w).2.events =
            Event.run (Backend.configArgs b) (b.run (Backend.configArgs b)) ::
            Event.rmtree b.working_dir :: t))
    ∧ ((w.dirExists = false ∨
          pyStrip (b.run (Backend.configArgs b)).out = b.repo_url) →
        (∀ e ∈ (Backend.update b w).2.events, isRmtreeEvent e = false)
        ∧ ∀ ident, ∀ e ∈ (Backend.checkout b ident w).2.events,
            isRmtreeEvent e = false) := by
  constructor
  · intro hd hc
    have hchk := check_working_dir_changed b w hd hc
    constructor
    · obtain ⟨t, ht, _⟩ := update_tail b w
      refine ⟨t, ?_⟩
      rw [ht, hchk, hw]
      rfl
    · intro ident
      obtain ⟨t, ht, _⟩ := checkout_tail b ident w
      have hchk2 : Backend.check_working_dir b (Backend.check_working_dir b w) =
          Backend.check_working_dir b w := by
        apply check_working_dir_notexists
        rw [hchk]
      refine ⟨t, ?_⟩
      rw [ht, hchk2, hchk, hw]
      rfl
  · intro h
    by_cases hd : w.dirExists = true
    · have hc : pyStrip (b.run (Backend.configArgs b)).out = b.repo_url := by
        rcases h with h | h
        · rw [hd] at h; cases h
        · exact h
      have hchk := check_working_dir_same_url b w hd hc
      have hch1 : (Backend.check_working_dir b w).events =
          [Event.run (Backend.configArgs b) (b.run (Backend.configArgs b))] := by
        rw [hchk, hw]; rfl
      constructor
      · obtain ⟨t, ht, hno⟩ := update_tail b w
        intro e he
        rw [ht, hch1] at he
        rcases List.mem_append.mp he with he | he
        · simp only [List.mem_singleton] at he; subst he; rfl
        · exact hno e he
      · intro ident
        obtain ⟨t, ht, hno⟩ := checkout_tail b ident w
        have hd1 : (Backend.check_working_dir b w).dirExists = true := by
          rw [hchk]; exact hd
        have hc1 : pyStrip (b.run (Backend.configArgs b)).out = b.repo_url := hc
        have hchk2 := check_working_dir_same_url b (Backend.check_working_dir b w) hd1 hc1
        have hch2 : (Backend.check_working_dir b (Backend.check_working_dir b w)).events =
            [Event.run (Backend.configArgs b) (b.run (Backend.configArgs b)),
             Event.run (Backend.configArgs b) (b.run (Backend.configArgs b))] := by
          rw [hchk2, hch1]
          rfl
        intro e he
        rw [ht, hch2] at he
        rcases List.mem_append.mp he with he | he
        · rcases List.mem_cons.mp he with he | he
          · subst he; rfl
          · simp only [List.mem_singleton] at he; subst he; rfl
        · exact hno e he
    · have hd' : w.dirExists = false := by
        cases hdd : w.dirExists
        · rfl
        · exact absurd hdd hd
      have hchk := check_working_dir_notexists b w hd'
      constructor
      · obtain ⟨t, ht, hno⟩ := update_tail b w
        intro e he
        rw [ht, hchk, hw] at he
        simp only [List.nil_append] at he
        exact hno e he
      · intro ident
        obtain ⟨t, ht, hno⟩ := checkout_tail b ident w
        have hchk2 : Backend.check_working_dir b (Backend.check_working_dir b w) = w := by
          rw [hchk]; exact hchk
        intro e he
        rw [ht, hchk2, hw] at he
        simp only [List.nil_append] at he
        exact hno e he

/-! ## C7 -/

/-- C7: `checkout` with no identifier on a backend with no configured
default branch performs `update` in full and then hard-resets to the
fallback branch name, returning that raw run triple. -/
theorem checkout_none_falls_back (b : Backend) (w : World)
    (hdb : b.default_branch = none)
    (hok : ∃ r, (Backend.update b (Backend.base_checkout b w)).1 =
        Except.ok r) :
    (Backend.checkout b none w).1 =
      Except.ok (b.run ["git", "reset", "--hard", Backend.fallback_branch, "--"])
    ∧ (Backend.checkout b none w).2.events =
        (Backend.update b (Backend.base_checkout b w)).2.events ++
        [Event.run ["git", "reset", "--hard", Backend.fallback_branch, "--"]
          (b.run ["git", "reset", "--hard", Backend.fallback_branch, "--"])] := by
  obtain ⟨r, hr⟩ := hok
  simp only [Backend.checkout]
  rcases hu : Backend.update b (Backend.base_checkout b w) with ⟨res, w2⟩
  rw [hu] at hr
  cases res with
  | error e => exact absurd hr (by simp)
  | ok r' =>
    constructor
    · simp [Backend.runCmd, Backend.pyOr, hdb]
    · simp [Backend.runCmd, Backend.pyOr, hdb, hu]

/-! ## C8 -/

set_option maxHeartbeats 1000000 in
/-- C8: the exit codes of the two submodule commands are never inspected:
changing what they return changes neither the outcome of `update` (error
or result) — and whenever `update` returns normally its value is exactly
the raw triple of the final `reset` command. -/
theorem update_ignores_submodule_codes (b : Backend) (w : World)
    (rnr2 : List String → RunResult)
    (hagree : ∀ args, args ≠ ["git", "submodule", "sync"] →
        args ≠ ["git", "submodule", "update", "--init", "--recursive"] →
        rnr2 args = b.run args) :
    (Backend.update { b with run := rnr2 } w).1 = (Backend.update b w).1
    ∧ ∀ r, (Backend.update b w).1 = Except.ok r →
        r = b.run (Backend.resetArgs b) := by
  have hcfg : rnr2 (Backend.configArgs b) = b.run (Backend.configArgs b) :=
    hagree _ (by simp [Backend.configArgs]) (by simp [Backend.configArgs])
  have hst : rnr2 ["git", "status"] = b.run ["git", "status"] :=
    hagree _ (by decide) (by decide)
  have hfp : rnr2 ["git", "fetch", "--prune"] = b.run ["git", "fetch", "--prune"] :=
    hagree _ (by decide) (by decide)
  have hcl : rnr2 (Backend.cloneArgs b) = b.run (Backend.cloneArgs b) :=
    hagree _ (by simp [Backend.cloneArgs]) (by simp [Backend.cloneArgs])
  have hrs : rnr2 (Backend.resetArgs b) = b.run (Backend.resetArgs b) :=
    hagree _ (by simp [Backend.resetArgs]) (by simp [Backend.resetArgs])
  have hcfgA : Backend.configArgs { b with run := rnr2 } = Backend.configArgs b := rfl
  have hclA : Backend.cloneArgs { b with run := rnr2 } = Backend.cloneArgs b := rfl
  have hrsA : Backend.resetArgs { b with run := rnr2 } = Backend.resetArgs b := rfl
  constructor
  · simp only [Backend.update, Backend.update_after_check, Backend.base_update,
      Backend.check_working_dir, Backend.base_check_working_dir,
      Backend.repo_url_changed, Backend.repo_exists, Backend.pull,
      Backend.clone, Backend.reset, Backend.runCmd, Backend.rmtreeFs,
      Backend.logWarning]
    simp only [hcfgA, hclA, hrsA, hcfg, hst, hfp, hcl, hrs]
    split_ifs <;> rfl
  · intro r hr
    simp only [Backend.update, Backend.update_after_check, Backend.base_update,
      Backend.check_working_dir, Backend.base_check_working_dir,
      Backend.repo_url_changed, Backend.repo_exists, Backend.pull,
      Backend.clone, Backend.reset, Backend.runCmd, Backend.rmtreeFs,
      Backend.logWarning] at hr
    split_ifs at hr <;> simp at hr <;> exact hr.symm

/-! ## Witnesses -/

theorem update_failed_fetch_or_clone_aborts_witness :
    (Backend.update ⟨"u", none, "/wd", fun args =>
        if args = ["git", "fetch", "--prune"] then ⟨1, "", ""⟩
        else ⟨0, "", ""⟩⟩ ⟨false, []⟩).1 =
      Except.error ⟨"u", GitStep.fetch, 1⟩
    ∧ (Backend.update ⟨"u", none, "/wd", fun args =>
        if args = ["git", "status"] then ⟨1, "", ""⟩
        else ⟨3, "", ""⟩⟩ ⟨false, []⟩).1 =
      Except.error ⟨"u", GitStep.clone, 3⟩ := by
  constructor
  · have h := update_failed_fetch_or_clone_aborts
      ⟨"u", none, "/wd", fun args =>
        if args = ["git", "fetch", "--prune"] then ⟨1, "", ""⟩
        else ⟨0, "", ""⟩⟩ ⟨false, []⟩ rfl
      (Or.inl ⟨by decide, by decide⟩)
    exact (h.1.1 (by decide)).trans (by decide)
  · have h := update_failed_fetch_or_clone_aborts
      ⟨"u", none, "/wd", fun args =>
        if args = ["git", "status"] then ⟨1, "", ""⟩
        else ⟨3, "", ""⟩⟩ ⟨false, []⟩ rfl
      (Or.inr ⟨by decide, by decide⟩)
    exact (h.1.2 (by decide)).trans (by decide)

theorem working_dir_removal_policy_witness :
    (∃ t, (Backend.update ⟨"u", none, "/wd", fun _ => ⟨0, "other", ""⟩⟩
        ⟨true, []⟩).2.events =
      Event.run ["git", "config", "-f", "/wd/.git/config", "--get",
          "remote.origin.url"] ⟨0, "other", ""⟩ ::
      Event.rmtree "/wd" :: t)
    ∧ ((Backend.update ⟨"u", none, "/wd", fun _ => ⟨0, "u", ""⟩⟩
          ⟨true, []⟩).2.events.all (fun e => !isRmtreeEvent e)) = true := by
  constructor
  · have h := (working_dir_removal_policy
      ⟨"u", none, "/wd", fun _ => ⟨0, "other", ""⟩⟩ ⟨true, []⟩ rfl).1
      rfl (by decide)
    obtain ⟨t, ht⟩ := h.1
    exact ⟨t, ht⟩
  · have h := (working_dir_removal_policy
      ⟨"u", none, "/wd", fun _ => ⟨0, "u", ""⟩⟩ ⟨true, []⟩ rfl).2
      (Or.inr (by decide))
    rw [List.all_eq_true]
    intro e he
    simp [h.1 e he]

theorem reset_revision_and_nonfatal_witness :
    (Backend.reset ⟨"u", none, "/wd", fun _ => ⟨1, "o", "e"⟩⟩ ⟨true, []⟩).1 =
      ⟨1, "o", "e"⟩
    ∧ (Backend.reset ⟨"u", none, "/wd", fun _ => ⟨1, "o", "e"⟩⟩
        ⟨true, []⟩).2.events =
      [Event.run ["git", "reset", "--hard", "origin/master"] ⟨1, "o", "e"⟩,
       Event.warn "u" 1]
    ∧ (Backend.reset ⟨"u", some "develop", "/wd", fun _ => ⟨0, "o", "e"⟩⟩
        ⟨true, []⟩).1 = ⟨0, "o", "e"⟩ := by
  refine ⟨?_, ?_, ?_⟩
  · exact ((reset_revision_and_nonfatal
      ⟨"u", none, "/wd", fun _ => ⟨1, "o", "e"⟩⟩ ⟨true, []⟩).1.1 rfl).trans
      (by decide)
  · have h := (reset_revision_and_nonfatal
      ⟨"u", none, "/wd", fun _ => ⟨1, "o", "e"⟩⟩ ⟨true, []⟩).2.1 (by decide)
    exact h.trans (by decide)
  · exact ((reset_revision_and_nonfatal
      ⟨"u", some "develop", "/wd", fun _ => ⟨0, "o", "e"⟩⟩ ⟨true, []⟩).1.2
      "develop" rfl (by decide)).trans (by decide)

theorem parse_tags_wellformed_witness :
    Backend.parse_tags
      ("bd533a768ff661991a689d3758fcfe72f455435d refs/tags/2.0.1\nc0288a17899b2c6818f74e3a90b77e2a1779f96a refs/tags/2.0.2") =
      Except.ok
        [⟨"bd533a768ff661991a689d3758fcfe72f455435d", "2.0.1"⟩,
         ⟨"c0288a17899b2c6818f74e3a90b77e2a1779f96a", "2.0.2"⟩] := by
  have h := parse_tags_wellformed
    ("bd533a768ff661991a689d3758fcfe72f455435d refs/tags/2.0.1\nc0288a17899b2c6818f74e3a90b77e2a1779f96a refs/tags/2.0.2")
    [("bd533a768ff661991a689d3758fcfe72f455435d", "refs/tags/2.0.1"),
     ("c0288a17899b2c6818f74e3a90b77e2a1779f96a", "refs/tags/2.0.2")]
    (by decide) (by decide)
  exact h.trans (by decide)

theorem parse_branches_origin_slug_witness :
    Backend.parse_branches "  origin/release/2.0.0" =
      [⟨"origin/release/2.0.0", "release-2.0.0"⟩]
    ∧ Backend.parse_branches "  origin/HEAD -> origin/master" = [] := by
  constructor
  · have h := parse_branches_origin_slug "  origin/release/2.0.0" [] []
      "  origin/release/2.0.0" "release/2.0.0" [] (by decide) (by decide)
    exact h.trans (by decide)
  · have h := parse_branches_origin_slug "  origin/HEAD -> origin/master" [] []
      "  origin/HEAD -> origin/master" "HEAD" ["->", "origin/master"]
      (by decide) (by decide)
    exact h.trans (by decide)

theorem tags_branches_empty_on_failure_witness :
    Backend.parse_tags "" = Except.ok []
    ∧ (Backend.tags ⟨"u", none, "/wd", fun _ => ⟨1, "x y", ""⟩⟩
        ⟨true, []⟩).1 = Except.ok []
    ∧ (Backend.branches ⟨"u", none, "/wd", fun _ => ⟨1, "x y", ""⟩⟩
        ⟨true, []⟩).1 = [] :=
  tags_branches_empty_on_failure ⟨"u", none, "/wd", fun _ => ⟨1, "x y", ""⟩⟩
    ⟨true, []⟩ (by decide) (by decide)

theorem checkout_none_falls_back_witness :
    (Backend.checkout ⟨"u", none, "/wd", fun _ => ⟨0, "u", ""⟩⟩ none
      ⟨false, []⟩).1 = Except.ok ⟨0, "u", ""⟩ := by
  have h := checkout_none_falls_back
    ⟨"u", none, "/wd", fun _ => ⟨0, "u", ""⟩⟩ ⟨false, []⟩ rfl
    ⟨⟨0, "u", ""⟩, by decide⟩
  exact h.1.trans (by decide)

theorem update_ignores_submodule_codes_witness :
    (Backend.update ⟨"u", none, "/wd", fun args =>
        if args = ["git", "submodule", "sync"] then ⟨7, "", ""⟩
        else if args = ["git", "submodule", "update", "--init", "--recursive"]
          then ⟨9, "", ""⟩
        else ⟨0, "x", ""⟩⟩ ⟨false, []⟩).1 = Except.ok ⟨0, "x", ""⟩ := by
  have h := update_ignores_submodule_codes
    ⟨"u", none, "/wd", fun _ => ⟨0, "x", ""⟩⟩ ⟨false, []⟩
    (fun args =>
       if args = ["git", "submodule", "sync"] then ⟨7, "", ""⟩
       else if args = ["git", "submodule", "update", "--init", "--recursive"]
         then ⟨9, "", ""⟩
       else ⟨0, "x", ""⟩)
    (by intro args h1 h2; simp [h1, h2])
  exact h.1.trans (by decide)

theorem parse_tags_malformed_raises_witness :
    ∃ e, Backend.parse_tags "a b c" = Except.error e :=
  parse_tags_malformed_raises "a b c" "a b c" (by decide) (by decide) (by decide)

theorem repo_url_changed_pure_string_compare_witness :
    (Backend.repo_url_changed ⟨"u/", none, "/wd", fun _ => ⟨5, "u", ""⟩⟩
      ⟨true, []⟩).1 = true
    ∧ (Backend.repo_url_changed ⟨"u", none, "/wd", fun _ => ⟨5, "", ""⟩⟩
      ⟨true, []⟩).1 = true := by
  constructor
  · exact (repo_url_changed_pure_string_compare
      ⟨"u/", none, "/wd", fun _ => ⟨5, "u", ""⟩⟩ ⟨true, []⟩
      (fun _ => ⟨0, "u", ""⟩) rfl).1.mpr (by decide)
  · exact (repo_url_changed_pure_string_compare
      ⟨"u", none, "/wd", fun _ => ⟨5, "", ""⟩⟩ ⟨true, []⟩
      (fun _ => ⟨0, "", ""⟩) rfl).2.2 (by decide) (by decide)
